import Mathlib

/-!
Shallow embedding of the article data-access layer of
`src/db/articles.rs` (actix-realworld-example-app).

Database rows become Lean structures, the database itself a record of
row lists, and each diesel statement an explicit function on that
state.  Every handler `impl Handler<Msg> for DbExecutor` becomes a
function `DB → Except DbError α × DB`: the second component is the
state left behind, also when the call errors partway through (the
sequence of statements is not wrapped in a transaction).

Diesel semantics embedded here:
* `get_result` on a query returns the first row of the result set and
  fails with `NotFound` when the set is empty;
* `INSERT ... ON CONFLICT (..) DO NOTHING RETURNING *` inserts nothing
  when the uniqueness constraint fires, so the statement returns zero
  rows and a following `get_result` fails with `NotFound`;
* an `update ... set` whose derived changeset has every field absent
  fails with a query-builder error before touching the row;
* a plain `INSERT` that violates a uniqueness constraint fails; the
  error taxonomy of the application maps it to `Conflict`.
-/

namespace ArticlesDb

/-- A row of the `users` table (the fields `articles.rs` reads). -/
structure User where
  id : Nat
  username : String
  bio : Option String
  image : Option String
deriving DecidableEq, Repr

/-- A row of the `articles` table. Uuids are modelled as naturals
(an actual uuid is its 128-bit value). -/
structure Article where
  id : Nat
  author_id : Nat
  slug : String
  title : String
  description : String
  body : String
  created_at : Nat
  updated_at : Nat
deriving DecidableEq, Repr

/-- A row of the `article_tags` table: the (article, tag name) pair. -/
structure ArticleTag where
  article_id : Nat
  tag_name : String
deriving DecidableEq, Repr

/-- A row of the `favorite_articles` table: the (user, article) pair. -/
structure FavoriteArticleRow where
  user_id : Nat
  article_id : Nat
deriving DecidableEq, Repr

/-- A row of the `followers` table: `follower_id` follows `user_id`. -/
structure FollowerRow where
  user_id : Nat
  follower_id : Nat
deriving DecidableEq, Repr

/-- The database state seen through one pooled connection. -/
structure DB where
  users : List User
  articles : List Article
  article_tags : List ArticleTag
  favorite_articles : List FavoriteArticleRow
  followers : List FollowerRow
deriving DecidableEq, Repr

/-- The failure taxonomy surfaced by the data layer: diesel `NotFound`,
the application's `Error::Forbidden`, a uniqueness violation
(`Conflict`), and diesel's query-builder error for an empty changeset. -/
inductive DbError where
  | notFound
  | forbidden
  | conflict
  | queryBuilderError
deriving DecidableEq, Repr

/-- `ProfileResponseInner` of the response projection. -/
structure ProfileResponseInner where
  username : String
  bio : Option String
  image : Option String
  following : Bool
deriving DecidableEq, Repr

/-- `ArticleResponseInner` of the response projection. -/
structure ArticleResponseInner where
  slug : String
  title : String
  description : String
  body : String
  tag_list : List String
  created_at : Nat
  updated_at : Nat
  favorited : Bool
  favorites_count : Nat
  author : ProfileResponseInner
deriving DecidableEq, Repr

/-- The authenticated request identity (`msg.auth`): the viewer's user row. -/
structure AuthUser where
  user : User
deriving DecidableEq, Repr

/-- The partial patch of `UpdateArticleOuter` (`msg.article`). -/
structure UpdateArticlePatch where
  title : Option String
  description : Option String
  body : Option String
  tag_list : Option (List String)
deriving DecidableEq, Repr

/-- `articles::table.filter(articles::slug.eq(slug))`: first row whose
slug matches. -/
def find_article_by_slug (slug : String) (db : DB) : Option Article :=
  db.articles.find? (fun a => a.slug == slug)

/-- `users::table` row with the given id (first match). -/
def find_user (uid : Nat) (db : DB) : Option User :=
  db.users.find? (fun u => u.id == uid)

/-- `add_tag`: `insert_into(article_tags).values(..).on_conflict((article_id,
tag_name)).do_nothing().get_result::<ArticleTag>(conn)`.  When the pair
already exists `DO NOTHING` inserts no row, the statement returns zero
rows, and `get_result` fails with diesel `NotFound`. -/
def add_tag (article_id : Nat) (tag_name : String) (db : DB) :
    Except DbError ArticleTag × DB :=
  if db.article_tags.any
      (fun t => t.article_id == article_id && t.tag_name == tag_name) then
    (.error .notFound, db)
  else
    let row : ArticleTag := ⟨article_id, tag_name⟩
    (.ok row, { db with article_tags := db.article_tags ++ [row] })

/-- `delete_tags`: delete every `article_tags` row of the article. -/
def delete_tags (article_id : Nat) (db : DB) : Except DbError Unit × DB :=
  (.ok (),
   { db with article_tags :=
      db.article_tags.filter (fun t => t.article_id != article_id) })

/-- `delete_favorites`: delete every `favorite_articles` row of the article. -/
def delete_favorites (article_id : Nat) (db : DB) : Except DbError Unit × DB :=
  (.ok (),
   { db with favorite_articles :=
      db.favorite_articles.filter (fun f => f.article_id != article_id) })

/-- The `tags.into_iter().map(|t| add_tag ..).collect::<Result<Vec<_>>>()`
loop of `replace_tags`: each `add_tag` runs against the connection in
order; the first failure aborts the rest, keeping the rows already
inserted. -/
def add_tags_loop (article_id : Nat) (tags : List String) (db : DB) :
    Except DbError (List ArticleTag) × DB :=
  match tags with
  | [] => (.ok [], db)
  | t :: ts =>
    match add_tag article_id t db with
    | (.error e, db1) => (.error e, db1)
    | (.ok row, db1) =>
      match add_tags_loop article_id ts db1 with
      | (.error e, db2) => (.error e, db2)
      | (.ok rows, db2) => (.ok (row :: rows), db2)

/-- `replace_tags`: `delete_tags` then `add_tag` for each name in order. -/
def replace_tags (article_id : Nat) (tags : List String) (db : DB) :
    Except DbError (List ArticleTag) × DB :=
  match delete_tags article_id db with
  | (.error e, db1) => (.error e, db1)
  | (.ok _, db1) => add_tags_loop article_id tags db1

/-- `select_tags_on_article`: the tag names of the article, in row order
(`load` of a possibly-empty set never fails logically). -/
def select_tags_on_article (article_id : Nat) (db : DB) : List String :=
  (db.article_tags.filter (fun t => t.article_id == article_id)).map
    (fun t => t.tag_name)

/-- `get_favorites_count`: `count()` of the article's favorite rows. -/
def get_favorites_count (article_id : Nat) (db : DB) : Nat :=
  (db.favorite_articles.filter (fun f => f.article_id == article_id)).length

/-- `get_favorited`: single-row query on the viewer's `users` row,
left-joined against `favorite_articles` on (user, article); fails with
`NotFound` when the viewer has no user row. -/
def get_favorited (article_id user_id : Nat) (db : DB) : Except DbError Bool :=
  match db.users.find? (fun u => u.id == user_id) with
  | none => .error .notFound
  | some _ =>
    .ok (db.favorite_articles.any
      (fun f => f.user_id == user_id && f.article_id == article_id))

/-- `get_favorited_and_following`: single-row query on the viewer's
`users` row, left-joined against `favorite_articles` on
(user, article) and against `followers` on (follower = viewer,
followed = author); fails with `NotFound` when the viewer has no user
row. -/
def get_favorited_and_following (article_id author_id user_id : Nat)
    (db : DB) : Except DbError (Bool × Bool) :=
  match db.users.find? (fun u => u.id == user_id) with
  | none => .error .notFound
  | some _ =>
    .ok
      (db.favorite_articles.any
        (fun f => f.user_id == user_id && f.article_id == article_id),
       db.followers.any
        (fun f => f.follower_id == user_id && f.user_id == author_id))

/-- Modelled from the spec: the `favorite_articles` table's uniqueness
constraint on the (user, article) pair — the schema/migrations are not
under src/; §3 states "one favorite per (user, article)" and §7 maps a
uniqueness violation not absorbed by insert-or-ignore to *Conflict*.
This is the plain `insert_into(favorite_articles).values(..)` of the
`FavoriteArticle` handler. -/
def insert_favorite (user_id article_id : Nat) (db : DB) :
    Except DbError Unit × DB :=
  if db.favorite_articles.any
      (fun f => f.user_id == user_id && f.article_id == article_id) then
    (.error .conflict, db)
  else
    (.ok (),
     { db with favorite_articles :=
        db.favorite_articles ++ [⟨user_id, article_id⟩] })

/-- `diesel::delete(favorite_articles).filter(user_id).filter(article_id)`
of the `UnfavoriteArticle` handler. -/
def delete_favorite (user_id article_id : Nat) (db : DB) :
    Except DbError Unit × DB :=
  let keep := fun (f : FavoriteArticleRow) =>
    !(f.user_id == user_id && f.article_id == article_id)
  (.ok (), { db with favorite_articles := db.favorite_articles.filter keep })

/-- The `k` little-endian base-64 digits of `m`. -/
def digitsLE : Nat → Nat → List Nat
  | 0, _ => []
  | k + 1, m => m % 64 :: digitsLE k (m / 64)

/-- The URL-safe base64 alphabet (`base64::URL_SAFE`):
`A`–`Z`, `a`–`z`, `0`–`9`, `-`, `_`. -/
def base64UrlChar (d : Nat) : Char :=
  if d < 26 then Char.ofNat (65 + d)
  else if d < 52 then Char.ofNat (97 + (d - 26))
  else if d < 62 then Char.ofNat (48 + (d - 52))
  else if d = 62 then Char.ofNat 45
  else Char.ofNat 95

/-- Inverse of `base64UrlChar` on the alphabet (used to prove the
encoding injective). -/
def base64UrlDigit (c : Char) : Nat :=
  if 65 ≤ c.toNat ∧ c.toNat ≤ 90 then c.toNat - 65
  else if 97 ≤ c.toNat ∧ c.toNat ≤ 122 then c.toNat - 97 + 26
  else if 48 ≤ c.toNat ∧ c.toNat ≤ 57 then c.toNat - 48 + 52
  else if c.toNat = 45 then 62
  else 63

/-- `blob_uuid::to_blob`: base64url-no-pad encoding of the uuid's 16
big-endian bytes, a 22-character token.  On the uuid's 128-bit value
`id` this is exactly the 22 base-64 digits of `id * 2^4` (the final
character pads four zero bits), most significant digit first. -/
def to_blob (id : Nat) : String :=
  String.mk (((digitsLE 22 (id * 16)).reverse).map base64UrlChar)

/-- One step of `slug::slugify`'s `push_char` on an already-accumulated
state (output so far, `prev_is_dash`): ASCII lowercase letters and
digits are kept, uppercase letters are lower-cased, anything else is a
separator emitting at most one `-`.  Non-ASCII characters go through
the `deunicode` transliteration table in the source; this embedding
maps them to that table's `"-"` fallback, i.e. the separator path (all
theorems below evaluate `slugify` on ASCII input only). -/
def slugifyStep (st : List Char × Bool) (c : Char) : List Char × Bool :=
  if (97 ≤ c.toNat ∧ c.toNat ≤ 122) ∨ (48 ≤ c.toNat ∧ c.toNat ≤ 57) then
    (st.1 ++ [c], false)
  else if 65 ≤ c.toNat ∧ c.toNat ≤ 90 then
    (st.1 ++ [Char.ofNat (c.toNat + 32)], false)
  else if st.2 then st
  else (st.1 ++ [Char.ofNat 45], true)

/-- `slug::slugify`: fold `push_char` over the characters with
`prev_is_dash` initially true, then drop a trailing `-` if present. -/
def slugify (s : String) : String :=
  let r := s.data.foldl slugifyStep ([], true)
  String.mk (if r.1.getLast? == some (Char.ofNat 45) then r.1.dropLast else r.1)

/-- `generate_slug`: `format!("{}-{}", to_blob(uuid), slugify(title))`. -/
def generate_slug (id : Nat) (title : String) : String :=
  to_blob id ++ "-" ++ slugify title

/-- `Handler<GetArticle>`: look the article up joined with its author
(`inner_join(users)`: the row exists only when the author's user row
does), resolve the two viewer flags — `(false, false)` without any
query when the request is anonymous — then count favorites, load tags
and assemble the projection. -/
def getArticle (slug : String) (auth : Option AuthUser) (db : DB) :
    Except DbError ArticleResponseInner × DB :=
  match find_article_by_slug slug db with
  | none => (.error .notFound, db)
  | some article =>
    match find_user article.author_id db with
    | none => (.error .notFound, db)
    | some author =>
      let ff := match auth with
        | some a => get_favorited_and_following article.id author.id a.user.id db
        | none => .ok (false, false)
      match ff with
      | .error e => (.error e, db)
      | .ok (favorited, following) =>
        (.ok { slug := article.slug, title := article.title,
               description := article.description, body := article.body,
               tag_list := select_tags_on_article article.id db,
               created_at := article.created_at,
               updated_at := article.updated_at,
               favorited := favorited,
               favorites_count := get_favorites_count article.id db,
               author := { username := author.username, bio := author.bio,
                           image := author.image, following := following } },
         db)

/-- `Handler<UpdateArticleOuter>`: look up by slug, refuse with
*Forbidden* unless the viewer is the author, build the `ArticleChange`
changeset (slug regenerated from the existing id when a new title is
given; diesel fails with a query-builder error when every changeset
field is absent), update the row, then replace or re-read tags,
recount favorites and re-check the author's own `favorited` flag. -/
def updateArticle (slug : String) (auth : AuthUser)
    (patch : UpdateArticlePatch) (db : DB) :
    Except DbError ArticleResponseInner × DB :=
  match find_article_by_slug slug db with
  | none => (.error .notFound, db)
  | some article =>
    if auth.user.id ≠ article.author_id then (.error .forbidden, db)
    else if patch.title = none ∧ patch.description = none ∧ patch.body = none
    then (.error .queryBuilderError, db)
    else
      let article' : Article :=
        { article with
          slug := (patch.title.map
            (fun t => generate_slug article.id t)).getD article.slug
          title := patch.title.getD article.title
          description := patch.description.getD article.description
          body := patch.body.getD article.body }
      let upd := fun (a : Article) => if a.id == article.id then article' else a
      let db1 := { db with articles := db.articles.map upd }
      match (match patch.tag_list with
             | some tags =>
               match replace_tags article.id tags db1 with
               | (.error e, dbx) => (Except.error e, dbx)
               | (.ok rows, dbx) =>
                 (Except.ok (rows.map (fun r => ArticleTag.tag_name r)), dbx)
             | none =>
               (Except.ok (select_tags_on_article article.id db1), db1)) with
      | (.error e, db2) => (.error e, db2)
      | (.ok tags, db2) =>
        let favorites_count := get_favorites_count article.id db2
        match get_favorited article.id auth.user.id db2 with
        | .error e => (.error e, db2)
        | .ok favorited =>
          (.ok { slug := article'.slug, title := article'.title,
                 description := article'.description, body := article'.body,
                 tag_list := tags, created_at := article'.created_at,
                 updated_at := article'.updated_at,
                 favorited := favorited, favorites_count := favorites_count,
                 author := { username := auth.user.username,
                             bio := auth.user.bio, image := auth.user.image,
                             following := false } },
           db2)

/-- `Handler<DeleteArticle>`: look up by slug, refuse with *Forbidden*
unless the viewer is the author, then `delete_tags`, then
`delete_favorites`, then delete the article row, in that order. -/
def deleteArticle (slug : String) (auth : AuthUser) (db : DB) :
    Except DbError Unit × DB :=
  match find_article_by_slug slug db with
  | none => (.error .notFound, db)
  | some article =>
    if auth.user.id ≠ article.author_id then (.error .forbidden, db)
    else
      let (_, db1) := delete_tags article.id db
      let (_, db2) := delete_favorites article.id db1
      let keep := fun (a : Article) => a.id != article.id
      (.ok (), { db2 with articles := db2.articles.filter keep })

/-- `Handler<FavoriteArticle>`: look up article+author, insert the
(viewer, article) favorite row — a duplicate pair is a uniqueness
violation — then recompute the flags, count and tags on the new
state. -/
def favoriteArticle (slug : String) (auth : AuthUser) (db : DB) :
    Except DbError ArticleResponseInner × DB :=
  match find_article_by_slug slug db with
  | none => (.error .notFound, db)
  | some article =>
    match find_user article.author_id db with
    | none => (.error .notFound, db)
    | some author =>
      match insert_favorite auth.user.id article.id db with
      | (.error e, db1) => (.error e, db1)
      | (.ok _, db1) =>
        match get_favorited_and_following article.id author.id
            auth.user.id db1 with
        | .error e => (.error e, db1)
        | .ok (favorited, following) =>
          (.ok { slug := article.slug, title := article.title,
                 description := article.description, body := article.body,
                 tag_list := select_tags_on_article article.id db1,
                 created_at := article.created_at,
                 updated_at := article.updated_at,
                 favorited := favorited,
                 favorites_count := get_favorites_count article.id db1,
                 author := { username := author.username, bio := author.bio,
                             image := author.image,
                             following := following } },
           db1)

/-- `Handler<UnfavoriteArticle>`: look up article+author, delete the
(viewer, article) favorite row if present (a delete matching nothing
succeeds), then recompute the flags, count and tags on the new
state. -/
def unfavoriteArticle (slug : String) (auth : AuthUser) (db : DB) :
    Except DbError ArticleResponseInner × DB :=
  match find_article_by_slug slug db with
  | none => (.error .notFound, db)
  | some article =>
    match find_user article.author_id db with
    | none => (.error .notFound, db)
    | some author =>
      match delete_favorite auth.user.id article.id db with
      | (.error e, db1) => (.error e, db1)
      | (.ok _, db1) =>
        match get_favorited_and_following article.id author.id
            auth.user.id db1 with
        | .error e => (.error e, db1)
        | .ok (favorited, following) =>
          (.ok { slug := article.slug, title := article.title,
                 description := article.description, body := article.body,
                 tag_list := select_tags_on_article article.id db1,
                 created_at := article.created_at,
                 updated_at := article.updated_at,
                 favorited := favorited,
                 favorites_count := get_favorites_count article.id db1,
                 author := { username := author.username, bio := author.bio,
                             image := author.image,
                             following := following } },
           db1)

/-! Sample rows and databases used by concrete witnesses. -/

/-- A sample author row. -/
def aliceUser : User := ⟨1, "alice", none, none⟩

/-- A sample second user row (not the author). -/
def bobUser : User := ⟨2, "bob", none, none⟩

/-- A sample article row owned by `aliceUser`. -/
def helloArticle : Article := ⟨10, 1, "blog-hello", "Hello", "d", "b", 0, 0⟩

/-- A sample database: two users, one article, nothing else. -/
def sampleDB : DB := ⟨[aliceUser, bobUser], [helloArticle], [], [], []⟩

end ArticlesDb

namespace ArticlesDb

/-- C1: `add_tag` on an already-present (article, tag) pair.  The first
call inserts the row and returns it; the second call hits the
uniqueness constraint, `ON CONFLICT DO NOTHING` inserts no row, so the
statement returns zero rows and `get_result` fails with `NotFound`
instead of succeeding with the existing row.  Only the one row remains
for the pair. -/
theorem add_tag_second_call_fails :
    (add_tag 10 "rust" sampleDB).1 = .ok ⟨10, "rust"⟩ ∧
    (add_tag 10 "rust" (add_tag 10 "rust" sampleDB).2).1 =
      .error .notFound ∧
    (add_tag 10 "rust" (add_tag 10 "rust" sampleDB).2).2.article_tags =
      [⟨10, "rust"⟩] :=
  ⟨rfl, rfl, rfl⟩

/-- C2: `replace_tags` with a duplicate name in the list.  The second
`add_tag "a"` conflicts with the first, `get_result` fails, and the
`collect::<Result<..>>` aborts: the whole call errors instead of
succeeding, leaving the tags partially replaced.  A duplicate-free
list succeeds. -/
theorem replace_tags_duplicate_list_fails :
    (replace_tags 10 ["a", "a"] sampleDB).1 = .error .notFound ∧
    (replace_tags 10 ["a", "a"] sampleDB).2.article_tags = [⟨10, "a"⟩] ∧
    (replace_tags 10 ["a", "b"] sampleDB).1 =
      .ok [⟨10, "a"⟩, ⟨10, "b"⟩] :=
  ⟨rfl, rfl, rfl⟩

/-- C4: when the viewer is not the stored author of the article found
by slug, both `UpdateArticleOuter` and `DeleteArticle` fail with
*Forbidden* and leave the database exactly as it was. -/
theorem update_delete_nonauthor_forbidden (slug : String) (auth : AuthUser)
    (patch : UpdateArticlePatch) (db : DB) (article : Article)
    (hfind : find_article_by_slug slug db = some article)
    (hne : auth.user.id ≠ article.author_id) :
    updateArticle slug auth patch db = (.error .forbidden, db) ∧
    deleteArticle slug auth db = (.error .forbidden, db) := by
  constructor
  · unfold updateArticle
    rw [hfind]
    simp [hne]
  · unfold deleteArticle
    rw [hfind]
    simp [hne]

/-- Witness for C4 at a concrete database: `bobUser` (id 2) is not the
author (id 1) of `helloArticle`. -/
theorem update_delete_nonauthor_forbidden_witness :
    find_article_by_slug "blog-hello" sampleDB = some helloArticle ∧
    (AuthUser.mk bobUser).user.id ≠ helloArticle.author_id ∧
    updateArticle "blog-hello" ⟨bobUser⟩ ⟨some "T", none, none, none⟩
        sampleDB = (.error .forbidden, sampleDB) ∧
    deleteArticle "blog-hello" ⟨bobUser⟩ sampleDB =
      (.error .forbidden, sampleDB) := by
  refine ⟨by decide, by decide, ?_⟩
  have h := update_delete_nonauthor_forbidden "blog-hello" ⟨bobUser⟩
    ⟨some "T", none, none, none⟩ sampleDB helloArticle (by decide) (by decide)
  exact h

/-- C9: an anonymous `GetArticle` (no viewer identity) succeeds with
`favorited = false` and `following = false`.  No hypothesis constrains
the `users`, `favorite_articles` or `followers` tables beyond the
author row the inner join needs: the flags are short-circuited without
any favorite/follow lookup (which would otherwise fail on a viewerless
state, see C10). -/
theorem get_article_anonymous_flags_false (slug : String) (db : DB)
    (article : Article) (author : User)
    (hfind : find_article_by_slug slug db = some article)
    (hauthor : find_user article.author_id db = some author) :
    ∃ r, getArticle slug none db = (.ok r, db) ∧
      r.favorited = false ∧ r.author.following = false := by
  refine ⟨⟨article.slug, article.title, article.description, article.body,
    select_tags_on_article article.id db, article.created_at,
    article.updated_at, false, get_favorites_count article.id db,
    ⟨author.username, author.bio, author.image, false⟩⟩, ?_, rfl, rfl⟩
  simp [getArticle, hfind, hauthor]

/-- Witness for C9 at a concrete database that does contain favorite
and follower rows for the article. -/
theorem get_article_anonymous_flags_false_witness :
    find_article_by_slug "blog-hello"
      ⟨[aliceUser], [helloArticle], [], [⟨2, 10⟩], [⟨1, 2⟩]⟩ =
        some helloArticle ∧
    find_user helloArticle.author_id
      ⟨[aliceUser], [helloArticle], [], [⟨2, 10⟩], [⟨1, 2⟩]⟩ =
        some aliceUser ∧
    ∃ r, getArticle "blog-hello" none
        ⟨[aliceUser], [helloArticle], [], [⟨2, 10⟩], [⟨1, 2⟩]⟩ =
          (.ok r, ⟨[aliceUser], [helloArticle], [], [⟨2, 10⟩], [⟨1, 2⟩]⟩) ∧
      r.favorited = false ∧ r.author.following = false := by
  refine ⟨by decide, by decide, ?_⟩
  exact get_article_anonymous_flags_false "blog-hello"
    ⟨[aliceUser], [helloArticle], [], [⟨2, 10⟩], [⟨1, 2⟩]⟩
    helloArticle aliceUser (by decide) (by decide)

/-- C5: a delete by the article's author succeeds; the handler runs
`delete_tags`, then `delete_favorites`, then deletes the article row,
in that order, and afterwards no tag row, favorite row or article row
referencing the deleted article's id remains (rows of other articles
are kept). -/
theorem delete_by_author_cascades (slug : String) (auth : AuthUser)
    (db : DB) (article : Article)
    (hfind : find_article_by_slug slug db = some article)
    (hauth : auth.user.id = article.author_id) :
    deleteArticle slug auth db =
      (.ok (),
       { db with
          articles := db.articles.filter (fun a => a.id != article.id)
          article_tags :=
            db.article_tags.filter (fun t => t.article_id != article.id)
          favorite_articles :=
            db.favorite_articles.filter
              (fun f => f.article_id != article.id) }) ∧
    (∀ t ∈ (deleteArticle slug auth db).2.article_tags,
      t.article_id ≠ article.id) ∧
    (∀ f ∈ (deleteArticle slug auth db).2.favorite_articles,
      f.article_id ≠ article.id) ∧
    (∀ a ∈ (deleteArticle slug auth db).2.articles, a.id ≠ article.id) := by
  have h1 : deleteArticle slug auth db =
      (.ok (),
       { db with
          articles := db.articles.filter (fun a => a.id != article.id)
          article_tags :=
            db.article_tags.filter (fun t => t.article_id != article.id)
          favorite_articles :=
            db.favorite_articles.filter
              (fun f => f.article_id != article.id) }) := by
    unfold deleteArticle delete_tags delete_favorites
    rw [hfind]
    simp [hauth]
  refine ⟨h1, ?_, ?_, ?_⟩ <;> rw [h1] <;> intro x hx <;>
    simp only [List.mem_filter, bne_iff_ne, ne_eq] at hx <;> exact hx.2

/-- Witness for C5: `aliceUser` deletes her article; the tag and
favorite rows of article 10 go away, those of article 99 stay. -/
theorem delete_by_author_cascades_witness :
    find_article_by_slug "blog-hello"
      ⟨[aliceUser], [helloArticle], [⟨10, "x"⟩, ⟨99, "y"⟩],
       [⟨2, 10⟩, ⟨2, 99⟩], []⟩ = some helloArticle ∧
    (AuthUser.mk aliceUser).user.id = helloArticle.author_id ∧
    deleteArticle "blog-hello" ⟨aliceUser⟩
      ⟨[aliceUser], [helloArticle], [⟨10, "x"⟩, ⟨99, "y"⟩],
       [⟨2, 10⟩, ⟨2, 99⟩], []⟩ =
      (.ok (), ⟨[aliceUser], [], [⟨99, "y"⟩], [⟨2, 99⟩], []⟩) := by
  refine ⟨by decide, by decide, ?_⟩
  have h := delete_by_author_cascades "blog-hello" ⟨aliceUser⟩
    ⟨[aliceUser], [helloArticle], [⟨10, "x"⟩, ⟨99, "y"⟩],
     [⟨2, 10⟩, ⟨2, 99⟩], []⟩ helloArticle (by decide) (by decide)
  rw [h.1]
  rfl

/-- C6: favoriting inserts the (viewer, article) pair; when the first
call succeeds, a second `FavoriteArticle` by the same viewer on the
same article hits the pair's uniqueness constraint and fails with
*Conflict* — there is no idempotent already-favorited success path. -/
theorem favorite_twice_conflict (slug : String) (auth : AuthUser)
    (db : DB) (article : Article) (author : User) (viewer : User)
    (hfind : find_article_by_slug slug db = some article)
    (hauthor : find_user article.author_id db = some author)
    (hviewer : find_user auth.user.id db = some viewer)
    (hnotfav : ∀ f ∈ db.favorite_articles,
      ¬(f.user_id = auth.user.id ∧ f.article_id = article.id)) :
    ∃ r db1, favoriteArticle slug auth db = (.ok r, db1) ∧
      favoriteArticle slug auth db1 = (.error .conflict, db1) := by
  have hany : db.favorite_articles.any
      (fun f => f.user_id == auth.user.id && f.article_id == article.id) =
        false := by
    rw [List.any_eq_false]
    intro f hf
    simpa using hnotfav f hf
  have hv : db.users.find? (fun u => u.id == auth.user.id) = some viewer := by
    simpa [find_user] using hviewer
  have hfind' : db.articles.find? (fun a => a.slug == slug) = some article := by
    simpa [find_article_by_slug] using hfind
  have hauthor' : db.users.find? (fun u => u.id == article.author_id) =
      some author := by
    simpa [find_user] using hauthor
  refine
    ⟨{ slug := article.slug, title := article.title,
       description := article.description, body := article.body,
       tag_list :=
         select_tags_on_article article.id
             { db with favorite_articles :=
                 db.favorite_articles ++ [⟨auth.user.id, article.id⟩] },
       created_at := article.created_at, updated_at := article.updated_at,
       favorited := true,
       favorites_count :=
         get_favorites_count article.id
             { db with favorite_articles :=
                 db.favorite_articles ++ [⟨auth.user.id, article.id⟩] },
       author := { username := author.username, bio := author.bio,
                   image := author.image,
                   following :=
                     db.followers.any
                         (fun f => f.follower_id == auth.user.id &&
                           f.user_id == author.id) } },
     { db with favorite_articles :=
         db.favorite_articles ++ [⟨auth.user.id, article.id⟩] },
     ?_, ?_⟩
  · simp [favoriteArticle, insert_favorite, get_favorited_and_following,
      find_article_by_slug, find_user, hfind', hauthor', hany, hv]
  · simp [favoriteArticle, insert_favorite, get_favorited_and_following,
      find_article_by_slug, find_user, hfind', hauthor', hany, hv]

/-- Witness for C6: `bobUser` favorites `helloArticle` twice; the first
call succeeds, the second yields *Conflict*. -/
theorem favorite_twice_conflict_witness :
    find_article_by_slug "blog-hello" sampleDB = some helloArticle ∧
    find_user helloArticle.author_id sampleDB = some aliceUser ∧
    find_user 2 sampleDB = some bobUser ∧
    (∀ f ∈ sampleDB.favorite_articles, ¬(f.user_id = 2 ∧ f.article_id = 10)) ∧
    ∃ r db1, favoriteArticle "blog-hello" ⟨bobUser⟩ sampleDB = (.ok r, db1) ∧
      favoriteArticle "blog-hello" ⟨bobUser⟩ db1 =
        (.error .conflict, db1) := by
  refine ⟨by decide, by decide, by decide, by decide, ?_⟩
  exact favorite_twice_conflict "blog-hello" ⟨bobUser⟩ sampleDB
    helloArticle aliceUser bobUser (by decide) (by decide) (by decide)
    (by decide)

/-- C7: a successful favorite followed by an unfavorite by the same
viewer returns `favorited = false` with `favorites_count` equal to its
pre-favorite value, and restores the database exactly; an unfavorite
with no (viewer, article) favorite row present leaves the database (in
particular the favorite set) unchanged. -/
theorem favorite_unfavorite_roundtrip (slug : String) (auth : AuthUser)
    (db : DB) (article : Article) (author : User) (viewer : User)
    (hfind : find_article_by_slug slug db = some article)
    (hauthor : find_user article.author_id db = some author)
    (hviewer : find_user auth.user.id db = some viewer)
    (hnotfav : ∀ f ∈ db.favorite_articles,
      ¬(f.user_id = auth.user.id ∧ f.article_id = article.id)) :
    (∃ r1 db1 r2, favoriteArticle slug auth db = (.ok r1, db1) ∧
       unfavoriteArticle slug auth db1 = (.ok r2, db) ∧
       r2.favorited = false ∧
       r2.favorites_count = get_favorites_count article.id db) ∧
    (unfavoriteArticle slug auth db).2 = db := by
  have hany : db.favorite_articles.any
      (fun f => f.user_id == auth.user.id && f.article_id == article.id) =
        false := by
    rw [List.any_eq_false]
    intro f hf
    simpa using hnotfav f hf
  have hv : db.users.find? (fun u => u.id == auth.user.id) = some viewer := by
    simpa [find_user] using hviewer
  have hfind' : db.articles.find? (fun a => a.slug == slug) = some article := by
    simpa [find_article_by_slug] using hfind
  have hauthor' : db.users.find? (fun u => u.id == article.author_id) =
      some author := by
    simpa [find_user] using hauthor
  have hkeepself : db.favorite_articles.filter
      (fun f => !(f.user_id == auth.user.id && f.article_id == article.id)) =
        db.favorite_articles := by
    rw [List.filter_eq_self]
    intro f hf
    have h := hnotfav f hf
    simp at h ⊢
    tauto
  have hfilter : (db.favorite_articles ++
      [(⟨auth.user.id, article.id⟩ : FavoriteArticleRow)]).filter
      (fun f => !(f.user_id == auth.user.id && f.article_id == article.id)) =
        db.favorite_articles := by
    rw [List.filter_append, hkeepself]
    simp
  constructor
  · refine
      ⟨{ slug := article.slug, title := article.title,
         description := article.description, body := article.body,
         tag_list :=
           select_tags_on_article article.id
               { db with favorite_articles :=
                   db.favorite_articles ++ [⟨auth.user.id, article.id⟩] },
         created_at := article.created_at, updated_at := article.updated_at,
         favorited := true,
         favorites_count :=
           get_favorites_count article.id
               { db with favorite_articles :=
                   db.favorite_articles ++ [⟨auth.user.id, article.id⟩] },
         author := { username := author.username, bio := author.bio,
                     image := author.image,
                     following :=
                       db.followers.any
                           (fun f => f.follower_id == auth.user.id &&
                             f.user_id == author.id) } },
       { db with favorite_articles :=
           db.favorite_articles ++ [⟨auth.user.id, article.id⟩] },
       { slug := article.slug, title := article.title,
         description := article.description, body := article.body,
         tag_list := select_tags_on_article article.id db,
         created_at := article.created_at, updated_at := article.updated_at,
         favorited := false,
         favorites_count := get_favorites_count article.id db,
         author := { username := author.username, bio := author.bio,
                     image := author.image,
                     following :=
                       db.followers.any
                           (fun f => f.follower_id == auth.user.id &&
                             f.user_id == author.id) } },
       ?_, ?_, rfl, rfl⟩
    · simp [favoriteArticle, insert_favorite, get_favorited_and_following,
        find_article_by_slug, find_user, hfind', hauthor', hany, hv]
    · simp only [unfavoriteArticle, delete_favorite,
        get_favorited_and_following, find_article_by_slug, find_user,
        hfind', hauthor', hv]
      rw [hfilter, hany]
  · simp only [unfavoriteArticle, delete_favorite,
      get_favorited_and_following, find_article_by_slug, find_user,
      hfind', hauthor', hv]
    rw [hkeepself]

/-- Witness for C7: `bobUser` favorites then unfavorites
`helloArticle`; the count returns to 0 and the database to its initial
value; an unfavorite without a favorite row leaves the state alone. -/
theorem favorite_unfavorite_roundtrip_witness :
    find_article_by_slug "blog-hello" sampleDB = some helloArticle ∧
    find_user helloArticle.author_id sampleDB = some aliceUser ∧
    find_user 2 sampleDB = some bobUser ∧
    (∀ f ∈ sampleDB.favorite_articles,
      ¬(f.user_id = 2 ∧ f.article_id = 10)) ∧
    ((∃ r1 db1 r2,
        favoriteArticle "blog-hello" ⟨bobUser⟩ sampleDB = (.ok r1, db1) ∧
        unfavoriteArticle "blog-hello" ⟨bobUser⟩ db1 = (.ok r2, sampleDB) ∧
        r2.favorited = false ∧
        r2.favorites_count = get_favorites_count 10 sampleDB) ∧
      (unfavoriteArticle "blog-hello" ⟨bobUser⟩ sampleDB).2 = sampleDB) := by
  refine ⟨by decide, by decide, by decide, by decide, ?_⟩
  exact favorite_unfavorite_roundtrip "blog-hello" ⟨bobUser⟩ sampleDB
    helloArticle aliceUser bobUser (by decide) (by decide) (by decide)
    (by decide)

/-- Running the `add_tag` loop over a duplicate-free list of names, on
a state none of whose tag rows collides with the list, inserts exactly
one row per name, in order. -/
theorem add_tags_loop_nodup (article_id : Nat) :
    ∀ (tags : List String) (db : DB), tags.Nodup →
      (∀ t ∈ db.article_tags,
        t.article_id ≠ article_id ∨ t.tag_name ∉ tags) →
      add_tags_loop article_id tags db =
        (.ok (tags.map (fun n => ⟨article_id, n⟩)),
         { db with article_tags :=
            db.article_tags ++ tags.map (fun n => ⟨article_id, n⟩) }) := by
  intro tags
  induction tags with
  | nil =>
    intro db _ _
    simp [add_tags_loop]
  | cons t ts ih =>
    intro db hnd hdisj
    have hanyf : db.article_tags.any
        (fun r => r.article_id == article_id && r.tag_name == t) = false := by
      rw [List.any_eq_false]
      intro r hr
      rcases hdisj r hr with h | h
      · simp [h]
      · have hne : r.tag_name ≠ t := fun he => h (he ▸ List.mem_cons_self t ts)
        simp [hne]
    have hok := ih
      { db with article_tags := db.article_tags ++ [⟨article_id, t⟩] }
      (List.Nodup.of_cons hnd)
      (by
        intro r hr
        simp only [List.mem_append, List.mem_singleton] at hr
        rcases hr with hr | hr
        · rcases hdisj r hr with h | h
          · exact Or.inl h
          · exact Or.inr fun hm => h (List.mem_cons_of_mem t hm)
        · subst hr
          exact Or.inr (List.nodup_cons.mp hnd).1)
    unfold add_tags_loop add_tag
    rw [hanyf]
    simp only [Bool.false_eq_true, if_false]
    rw [hok]
    simp

/-- C8: update is a partial patch.  When the viewer is the author and
the changeset is not empty (diesel refuses an all-absent changeset)
and any provided tag list is duplicate-free (a duplicate would trip
the `add_tag` conflict of C1/C2), the update succeeds; the stored row
keeps the stored title/description/body wherever the patch field is
absent, and the slug is regenerated from the *existing* article id and
the new title exactly when a title is present (otherwise it is left
unchanged). -/
theorem update_partial_patch (slug : String) (auth : AuthUser)
    (patch : UpdateArticlePatch) (db : DB) (article : Article) (viewer : User)
    (hfind : find_article_by_slug slug db = some article)
    (hauth : auth.user.id = article.author_id)
    (hviewer : find_user auth.user.id db = some viewer)
    (hchange : ¬(patch.title = none ∧ patch.description = none ∧
      patch.body = none))
    (htags : ∀ ts, patch.tag_list = some ts → ts.Nodup) :
    (updateArticle slug auth patch db).2.articles =
      db.articles.map (fun a =>
        if a.id == article.id then
          { article with
            slug := (patch.title.map
                (fun t2 => generate_slug article.id t2)).getD article.slug
            title := patch.title.getD article.title
            description := patch.description.getD article.description
            body := patch.body.getD article.body }
        else a) ∧
    ∃ r, (updateArticle slug auth patch db).1 = .ok r ∧
      r.slug = (patch.title.map
        (fun t2 => generate_slug article.id t2)).getD article.slug ∧
      r.title = patch.title.getD article.title ∧
      r.description = patch.description.getD article.description ∧
      r.body = patch.body.getD article.body := by
  have hfind' : db.articles.find? (fun a => a.slug == slug) = some article := by
    simpa [find_article_by_slug] using hfind
  have hv : db.users.find? (fun u => u.id == auth.user.id) = some viewer := by
    simpa [find_user] using hviewer
  have hv2 : db.users.find? (fun u => u.id == article.author_id) =
      some viewer := by
    rw [← hauth]
    exact hv
  rcases htl : patch.tag_list with _ | ts
  · constructor
    · simp [updateArticle, find_article_by_slug, find_user, get_favorited,
        hfind', hv, hv2, hauth, hchange, htl]
    · simp [updateArticle, find_article_by_slug, find_user, get_favorited,
        hfind', hv, hv2, hauth, hchange, htl]
  · have hnd := htags ts htl
    have hloop := add_tags_loop_nodup article.id ts
      { db with
        articles :=
          db.articles.map (fun a =>
            if a.id == article.id then
              { article with
                slug := (patch.title.map
                    (fun t2 => generate_slug article.id t2)).getD article.slug
                title := patch.title.getD article.title
                description := patch.description.getD article.description
                body := patch.body.getD article.body }
            else a)
        article_tags :=
          db.article_tags.filter (fun t2 => t2.article_id != article.id) }
      hnd
      (by
        intro r hr
        refine Or.inl ?_
        simp only [List.mem_filter, bne_iff_ne, ne_eq] at hr
        exact hr.2)
    simp only [Option.map_some, Option.getD_some] at hloop ⊢
    simp at hloop
    constructor
    · simp [updateArticle, replace_tags, delete_tags, find_article_by_slug,
        find_user, get_favorited, hfind', hv, hv2, hauth, hchange, htl, hnd,
        hloop]
    · simp [updateArticle, replace_tags, delete_tags, find_article_by_slug,
        find_user, get_favorited, hfind', hv, hv2, hauth, hchange, htl, hnd,
        hloop]

/-- Witness for C8: `aliceUser` patches only the title and tag list of
her article; description and body keep their stored values and the
slug is regenerated from the stored id 10 with the new title. -/
theorem update_partial_patch_witness :
    find_article_by_slug "blog-hello" sampleDB = some helloArticle ∧
    (AuthUser.mk aliceUser).user.id = helloArticle.author_id ∧
    find_user 1 sampleDB = some aliceUser ∧
    ¬((some "New Title" : Option String) = none ∧
      (none : Option String) = none ∧ (none : Option String) = none) ∧
    (∀ ts, (some ["x"] : Option (List String)) = some ts → ts.Nodup) ∧
    ((updateArticle "blog-hello" ⟨aliceUser⟩
        ⟨some "New Title", none, none, some ["x"]⟩ sampleDB).2.articles =
      sampleDB.articles.map (fun a =>
        if a.id == helloArticle.id then
          { helloArticle with
            slug := generate_slug helloArticle.id "New Title"
            title := "New Title" }
        else a) ∧
     ∃ r, (updateArticle "blog-hello" ⟨aliceUser⟩
        ⟨some "New Title", none, none, some ["x"]⟩ sampleDB).1 = .ok r ∧
       r.slug = generate_slug helloArticle.id "New Title" ∧
       r.title = "New Title" ∧
       r.description = helloArticle.description ∧
       r.body = helloArticle.body) := by
  refine ⟨by decide, by decide, by decide, by decide, ?_, ?_⟩
  · intro ts h
    injection h with h2
    subst h2
    decide
  · exact update_partial_patch "blog-hello" ⟨aliceUser⟩
      ⟨some "New Title", none, none, some ["x"]⟩ sampleDB helloArticle
      aliceUser (by decide) (by decide) (by decide) (by decide)
      (fun ts h => by injection h with h2; subst h2; decide)

/-- Value recovered from a little-endian list of base-64 digits. -/
def undigitsLE : List Nat → Nat
  | [] => 0
  | d :: ds => d + 64 * undigitsLE ds

/-- Recomposing the `k` little-endian base-64 digits of `m` yields
`m mod 64^k`. -/
theorem undigitsLE_digitsLE : ∀ (k m : Nat),
    undigitsLE (digitsLE k m) = m % 64 ^ k := by
  intro k
  induction k with
  | zero =>
    intro m
    simp [digitsLE, undigitsLE, Nat.mod_one]
  | succ k ih =>
    intro m
    simp only [digitsLE, undigitsLE, ih]
    rw [Nat.pow_succ', Nat.mod_mul]

/-- `digitsLE k m` has exactly `k` digits. -/
theorem digitsLE_length : ∀ (k m : Nat), (digitsLE k m).length = k := by
  intro k
  induction k with
  | zero => intro m; simp [digitsLE]
  | succ k ih => intro m; simp [digitsLE, ih]

/-- Every digit produced by `digitsLE` is below 64. -/
theorem digitsLE_lt : ∀ (k m : Nat), ∀ d ∈ digitsLE k m, d < 64 := by
  intro k
  induction k with
  | zero => intro m d hd; simp [digitsLE] at hd
  | succ k ih =>
    intro m d hd
    simp only [digitsLE, List.mem_cons] at hd
    rcases hd with hd | hd
    · subst hd
      exact Nat.mod_lt _ (by norm_num)
    · exact ih (m / 64) d hd

/-- `base64UrlDigit` inverts `base64UrlChar` on every digit. -/
theorem base64UrlDigit_char : ∀ d < 64,
    base64UrlDigit (base64UrlChar d) = d := by
  decide

/-- Decoding a digit-list encoding recovers the digits. -/
theorem map_base64_recover : ∀ (L : List Nat), (∀ d ∈ L, d < 64) →
    (L.map base64UrlChar).map base64UrlDigit = L := by
  intro L
  induction L with
  | nil => intro _; simp
  | cons a l ih =>
    intro h
    simp only [List.map_cons, List.cons.injEq]
    exact ⟨base64UrlDigit_char a (h a (List.mem_cons_self a l)),
      ih (fun d hd => h d (List.mem_cons_of_mem a hd))⟩

/-- `to_blob` is injective on 128-bit values: the 22-character token
determines the uuid. -/
theorem to_blob_inj (id1 id2 : Nat) (h1 : id1 < 2 ^ 128) (h2 : id2 < 2 ^ 128)
    (heq : (to_blob id1).data = (to_blob id2).data) : id1 = id2 := by
  simp only [to_blob] at heq
  have hrev : (digitsLE 22 (id1 * 16)).reverse =
      (digitsLE 22 (id2 * 16)).reverse := by
    have e1 := map_base64_recover (digitsLE 22 (id1 * 16)).reverse
      (fun d hd => digitsLE_lt 22 (id1 * 16) d (List.mem_reverse.mp hd))
    have e2 := map_base64_recover (digitsLE 22 (id2 * 16)).reverse
      (fun d hd => digitsLE_lt 22 (id2 * 16) d (List.mem_reverse.mp hd))
    rw [← e1, ← e2, heq]
  have hdig : digitsLE 22 (id1 * 16) = digitsLE 22 (id2 * 16) :=
    List.reverse_inj.mp hrev
  have hu := congrArg undigitsLE hdig
  rw [undigitsLE_digitsLE, undigitsLE_digitsLE] at hu
  have hlt1 : id1 * 16 < 64 ^ 22 := by
    have : id1 * 16 < 2 ^ 128 * 16 :=
      Nat.mul_lt_mul_of_lt_of_le h1 (Nat.le_refl 16) (by norm_num)
    calc id1 * 16 < 2 ^ 128 * 16 := this
      _ = 64 ^ 22 := by norm_num
  have hlt2 : id2 * 16 < 64 ^ 22 := by
    have : id2 * 16 < 2 ^ 128 * 16 :=
      Nat.mul_lt_mul_of_lt_of_le h2 (Nat.le_refl 16) (by norm_num)
    calc id2 * 16 < 2 ^ 128 * 16 := this
      _ = 64 ^ 22 := by norm_num
  rw [Nat.mod_eq_of_lt hlt1, Nat.mod_eq_of_lt hlt2] at hu
  exact Nat.eq_of_mul_eq_mul_right (by norm_num) hu

/-- C3: `generate_slug` is a total Lean function (hence deterministic
and pure) producing the URL-safe encoding of the id, a hyphen, and the
slugified title; and it is injective in the article id — two articles
with distinct 128-bit ids get distinct slugs even for an identical
title. -/
theorem generate_slug_id_injective (id1 id2 : Nat) (t : String)
    (h1 : id1 < 2 ^ 128) (h2 : id2 < 2 ^ 128) :
    generate_slug id1 t = to_blob id1 ++ "-" ++ slugify t ∧
    (id1 ≠ id2 → generate_slug id1 t ≠ generate_slug id2 t) := by
  refine ⟨rfl, fun hne heq => hne ?_⟩
  have hdata := congrArg String.data heq
  simp only [generate_slug, String.data_append, List.append_assoc] at hdata
  have hlen : (to_blob id1).data.length = (to_blob id2).data.length := by
    simp [to_blob, digitsLE_length]
  exact to_blob_inj id1 id2 h1 h2 (List.append_inj_left hdata hlen)

/-- Witness for C3: ids 0 and 1 with the same title "Hello World"
produce different slugs that both end in "-hello-world". -/
theorem generate_slug_id_injective_witness :
    (0 : Nat) < 2 ^ 128 ∧ (1 : Nat) < 2 ^ 128 ∧
    (generate_slug 0 "Hello World" =
        to_blob 0 ++ "-" ++ slugify "Hello World" ∧
      ((0 : Nat) ≠ 1 →
        generate_slug 0 "Hello World" ≠ generate_slug 1 "Hello World")) :=
  ⟨by norm_num, by norm_num,
   generate_slug_id_injective 0 1 "Hello World" (by norm_num) (by norm_num)⟩

/-- C10: `get_favorited` and `get_favorited_and_following` are keyed on
the viewer's `users` row: when no user row carries the viewer's id,
the single-row query finds nothing and both fail with `NotFound`
instead of reporting `(false, false)` — even when favorite rows for
that id exist. -/
theorem annotation_lookups_need_user_row (article_id author_id vid : Nat)
    (db : DB) (hnouser : ∀ u ∈ db.users, u.id ≠ vid) :
    get_favorited article_id vid db = .error .notFound ∧
    get_favorited_and_following article_id author_id vid db =
      .error .notFound := by
  have hfind : db.users.find? (fun u => u.id == vid) = none := by
    rw [List.find?_eq_none]
    intro u hu
    simpa using hnouser u hu
  constructor
  · unfold get_favorited
    rw [hfind]
  · unfold get_favorited_and_following
    rw [hfind]

/-- Witness for C10: viewer id 77 has no user row, yet a favorite row
(77, 10) exists; both lookups still fail with `NotFound`. -/
theorem annotation_lookups_need_user_row_witness :
    (∀ u ∈ (DB.mk [aliceUser] [helloArticle] [] [⟨77, 10⟩] []).users,
      u.id ≠ 77) ∧
    get_favorited 10 77 ⟨[aliceUser], [helloArticle], [], [⟨77, 10⟩], []⟩ =
      .error .notFound ∧
    get_favorited_and_following 10 1 77
      ⟨[aliceUser], [helloArticle], [], [⟨77, 10⟩], []⟩ =
        .error .notFound := by
  refine ⟨by decide, ?_⟩
  exact annotation_lookups_need_user_row 10 1 77
    ⟨[aliceUser], [helloArticle], [], [⟨77, 10⟩], []⟩ (by decide)

end ArticlesDb
